import Mathlib

/-!
Verification of the pixelpose renderer pipeline.

Shallow embedding of the Python sources under `renderer/` (job enumeration,
worker loop, frame-count estimation, camera framing, bounding-box accumulation,
stick-figure projection, pixelation) together with the CLI purge pass.
Machine reals from the Python code are modelled as exact rationals `ℚ`;
Python `int` is modelled as `ℤ` (arbitrary precision in Python as well).
-/

namespace Pixelpose

/-! ### Python numeric primitives -/

/-- Python `int(q)` on a number: truncation toward zero. -/
def truncQ (q : ℚ) : ℤ :=
  if 0 ≤ q then ⌊q⌋ else -⌊-q⌋

/-- Python 3 `round(q)`: round half to even (banker's rounding). -/
def pyRound (q : ℚ) : ℤ :=
  if q - (⌊q⌋ : ℚ) < 1/2 then ⌊q⌋
  else if 1/2 < q - (⌊q⌋ : ℚ) then ⌊q⌋ + 1
  else if ⌊q⌋ % 2 = 0 then ⌊q⌋ else ⌊q⌋ + 1

/-- One character is an ASCII decimal digit. -/
def isDigitChar (c : Char) : Bool :=
  '0' ≤ c && c ≤ '9'

/-- Digit string to natural number accumulator. -/
def digitsToNat : List Char → Nat → Nat
  | [], acc => acc
  | c :: cs, acc => digitsToNat cs (acc * 10 + (c.toNat - '0'.toNat))

/-- ASCII whitespace, as stripped by Python `str.strip()`. -/
def isPySpace (c : Char) : Bool :=
  c = ' ' || c = '\t' || c = '\n' || c = '\r' || c = '\x0b' || c = '\x0c'

/-- Python `str.strip()`: drop whitespace from both ends. -/
def pyStrip (s : String) : String :=
  ⟨((s.data.dropWhile isPySpace).reverse.dropWhile isPySpace).reverse⟩

/-- Python `str.endswith(t)`: the last `len(t)` characters equal `t`
(false when `s` is shorter than `t`). -/
def pyEndsWith (s t : String) : Bool :=
  s.data.drop (s.data.length - t.data.length) == t.data

/-- Python `int(s)` on an already-stripped string: optional sign followed by a
non-empty run of decimal digits; anything else raises `ValueError` (`none`).
(Python also accepts `_` digit-group separators; not modelled, no caller
produces them.) -/
def pyIntParse (s : String) : Option ℤ :=
  let chars := s.toList
  let core : List Char → Option ℤ := fun ds =>
    if ds ≠ [] ∧ ds.all isDigitChar then some (digitsToNat ds 0 : ℤ) else none
  match chars with
  | '-' :: rest => (core rest).map (fun n => -n)
  | '+' :: rest => core rest
  | _ => core chars

/-! ### Pixelation filter (`renderer/utils.py`, `pixelize_frames`)

An image is width, height and a pixel lookup (pixel values are abstract
naturals: one RGBA sample per coordinate).  `resizeNearest` models
`PIL.Image.resize(..., resample=Image.NEAREST)`: Pillow raises
`ValueError: height and width must be > 0` when a target dimension is < 1,
returns a copy when the size is unchanged, and otherwise samples the input
at the center of each output pixel, `xin = floor((xout + 0.5) * w_in / w_out)`.
-/

structure Img where
  w : ℕ
  h : ℕ
  px : ℕ → ℕ → ℕ

/-- Two images agree byte for byte: same dimensions, same pixels in bounds. -/
def sameImage (a b : Img) : Prop :=
  a.w = b.w ∧ a.h = b.h ∧ ∀ x y, x < a.w → y < a.h → a.px x y = b.px x y

/-- Nearest-neighbor index: `floor((xout + 0.5) * sizeIn / sizeOut)` as pure
natural arithmetic, `(2 * xout + 1) * sizeIn / (2 * sizeOut)`. -/
def nnIndex (sizeIn sizeOut x : ℕ) : ℕ :=
  (2 * x + 1) * sizeIn / (2 * sizeOut)

def resizeNearest (img : Img) (w2 h2 : ℕ) : Except String Img :=
  if w2 < 1 ∨ h2 < 1 then
    .error "ValueError: height and width must be greater than 0"
  else if w2 = img.w ∧ h2 = img.h then
    .ok img   -- Pillow fast path: same size returns a plain copy
  else
    .ok { w := w2, h := h2,
          px := fun x y => img.px (nnIndex img.w w2 x) (nnIndex img.h h2 y) }

/-- Loop body of `pixelize_frames` for one frame image:
downsample to `(width // pixel_size, height // pixel_size)` with NEAREST,
then upsample back to `(width, height)` with NEAREST. -/
def pixelizeFrame (frame : Img) (pixel_size : ℕ) : Except String Img :=
  (resizeNearest frame (frame.w / pixel_size) (frame.h / pixel_size)).bind
    fun pixels => resizeNearest pixels frame.w frame.h

/-- `pixelize_frames` over the globbed frame list: each frame is filtered in
turn; the first Pillow error escapes the loop. -/
def pixelize_frames (frames : List Img) (pixel_size : ℕ) : Except String (List Img) :=
  frames.mapM (fun f => pixelizeFrame f pixel_size)

/-! ### Job model (`renderer/model.py`)

`RenderJob` is declared with exactly five fields — `source_path`,
`target_path`, `output_dir`, `resolution`, `fps`.  There is no `pixel_size`
field, although `render_job_iter` passes a sixth positional argument and
`worker_process` reads `job.pixel_size`. -/

structure RenderJob where
  source_path : String
  target_path : String
  output_dir : String
  resolution : ℤ
  fps : ℤ
deriving DecidableEq

structure RenderJobResult where
  job : RenderJob
  frames_rendered : ℤ
  error : Bool
  error_message : String
deriving DecidableEq

/-! ### Job enumeration (`renderer/utils.py`, `render_job_iter`)

Python dataclass construction is dynamically checked: the generated
`__init__` of `RenderJob` accepts exactly one positional argument per
declared field and raises `TypeError` otherwise.  We model construction
untyped to capture that runtime check. -/

inductive PyVal where
  | pstr (s : String)
  | pint (n : ℤ)
deriving DecidableEq

/-- Field list of the `RenderJob` dataclass as declared in
`renderer/model.py` (no `pixel_size`). -/
def renderJobFields : List String :=
  ["source_path", "target_path", "output_dir", "resolution", "fps"]

/-- Dataclass `__init__`: binds positional arguments to declared fields,
`TypeError` when the arity disagrees. -/
def dataclassInit (fields : List String) (args : List PyVal) :
    Except String (List (String × PyVal)) :=
  if args.length = fields.length then .ok (fields.zip args)
  else .error "TypeError: __init__ takes a fixed number of positional arguments"

/-- `pathlib.Path.stem`: the file name without its last suffix. -/
def pathStem (s : String) : String :=
  match s.splitOn "." with
  | [] => s
  | [p] => p
  | parts => String.intercalate "." parts.dropLast

/-- `render_job_iter`, fully forced (the caller `_create_jobs` runs
`list(...)` over the generator).  A directory is `none` when it does not
exist (`FileNotFoundError`); otherwise it is the list of `*.fbx` file names
it contains.  One `RenderJob(source, target, render_dir, resolution, fps,
pixel_size)` construction per (target, source) pair, in loop order. -/
def render_job_iter (source_dir target_dir : Option (List String))
    (output_dir : String) (resolution fps pixel_size : ℤ) :
    Except String (List (List (String × PyVal))) :=
  match source_dir with
  | none => .error "FileNotFoundError: source_dir does not exist"
  | some sources =>
    match target_dir with
    | none => .error "FileNotFoundError: target_dir does not exist"
    | some targets =>
      (targets.flatMap (fun t => sources.map (fun s => (t, s)))).mapM
        (fun p =>
          let render_dir := output_dir ++ "/" ++ pathStem p.1 ++ "/" ++ pathStem p.2
          dataclassInit renderJobFields
            [.pstr p.2, .pstr p.1, .pstr render_dir,
             .pint resolution, .pint fps, .pint pixel_size])

/-! ### Frame-count subprocess call (`renderer/utils.py`,
`call_count_frames_script`)

`subprocess.run(..., check=True)` raises `CalledProcessError` on a non-zero
exit status; the stderr text is then stripped and fed to `int(...)`, which
raises `ValueError` when it is not an integer literal. -/

structure SubprocResult where
  returncode : ℤ
  stderr : String
deriving DecidableEq

def call_count_frames_script (r : SubprocResult) : Except String ℤ :=
  if r.returncode ≠ 0 then
    .error "CalledProcessError: command returned non-zero exit status"
  else
    match pyIntParse (pyStrip r.stderr) with
    | some n => .ok n
    | none => .error "ValueError: invalid literal for int"

/-! ### Worker loop body (`renderer/worker.py`, `worker_process`)

One iteration of the loop for a real job (not the poison pill).  External
effects are supplied by an environment: the outcome of the frame-count
subprocess, whether the render/projection/pixelation block raised
(`renderExc`, the caught exception text — note that with the current
`RenderJob` the `job.pixel_size` attribute access inside the `try` raises
`AttributeError`, which this block likewise catches), and how many frame
images the external render wrote (`framesWritten`).

The returned value is `.ok (result, producedFrames)` when the iteration
pushes a `RenderJobResult` (always exactly one) onto the result queue,
where `producedFrames` counts the frame images actually produced for the
job; `.error e` when an exception escapes the loop body uncaught, in which
case nothing is pushed. -/

structure WorkerEnv where
  countProc : SubprocResult
  renderExc : Option String
  framesWritten : ℕ
deriving DecidableEq

def worker_step (job : RenderJob) (env : WorkerEnv) (count_only : Bool) :
    Except String (RenderJobResult × ℕ) :=
  -- frames_to_render = call_count_frames_script(job): OUTSIDE any try/except,
  -- so an exception from the count query propagates (the .error of the bind)
  (call_count_frames_script env.countProc).bind fun frames_to_render =>
    if frames_to_render = 0 then
      .ok (⟨job, frames_to_render, true, "0 frames to render"⟩, 0)
    else if count_only then
      .ok (⟨job, frames_to_render, false, ""⟩, 0)
    else
      match env.renderExc with
      | none =>
        .ok (⟨job, frames_to_render, false, ""⟩, env.framesWritten)
      | some e =>
        .ok (⟨job, frames_to_render, true, "Render failed: " ++ e⟩,
             env.framesWritten)

/-! ### Frame-count estimator (`renderer/scripts/count_frames.py`, `main`)

The Blender-side state is the imported scene: whether the source armature
was found, whether it carries animation data, the action's integer frame
range and the scene frame rate. -/

structure CountScene where
  hasArmature : Bool
  hasAnimation : Bool
  frame_start : ℤ
  frame_end : ℤ
  scene_fps : ℤ
deriving DecidableEq

def count_frames_main (scene : CountScene) (fps : ℤ) : Except String ℤ :=
  if ¬scene.hasArmature then
    .error "RuntimeError: Failed to find source Armature"
  else if ¬scene.hasAnimation then
    .error "RuntimeError: The source Armature does not have animation data"
  else
    let total_frames : ℤ := scene.frame_end - scene.frame_start + 1
    -- total_frames_to_render = int(total_frames / scene_fps * render_fps)
    .ok (truncQ ((total_frames : ℚ) / (scene.scene_fps : ℚ) * (fps : ℚ)))

/-- Spec-side definition (§4.2, for comparison with the code): the estimator
contract computes `round(source_total_frames / source_fps * target_fps)`
with Python rounding. -/
def specCountFrames (total_frames source_fps target_fps : ℤ) : ℤ :=
  pyRound ((total_frames : ℚ) / (source_fps : ℚ) * (target_fps : ℚ))

/-! ### Camera framing (`renderer/scripts/render.py`)

A camera state is its location, the raw direction vector last handed to
`to_track_quat` (the resulting rotation is a function of that vector's ray:
`to_track_quat` normalizes, so positively-proportional vectors give the
identical rotation), and the orthographic scale. -/

structure Vec3 where
  x : ℚ
  y : ℚ
  z : ℚ
deriving DecidableEq

structure Camera where
  loc : Vec3
  track : Vec3
  ortho_scale : ℚ
deriving DecidableEq

/-- Two track vectors determine the same viewing direction: one is a
positive multiple of the other. -/
def sameDir (u v : Vec3) : Prop :=
  ∃ c : ℚ, 0 < c ∧ v.x = c * u.x ∧ v.y = c * u.y ∧ v.z = c * u.z

/-- Per-frame bounding box, the six values returned by
`_calculate_bbox_for_frame`. -/
structure FrameBBox where
  min_x : ℚ
  max_x : ℚ
  min_y : ℚ
  max_y : ℚ
  min_z : ℚ
  max_z : ℚ
deriving DecidableEq

/-- The `global_bbox` tuple `(width, height, center, min_z, max_z, depth)`
built at the end of `_calculate_global_bbox_and_poses`. -/
structure GlobalBBoxT where
  width : ℚ
  height : ℚ
  center : Vec3
  min_z : ℚ
  max_z : ℚ
  depth : ℚ
deriving DecidableEq

/-- `_position_camera_for_sprite_sheet`: sets the orthographic scale from the
global bounding box, places the camera, computes the look direction toward
the global center, then lifts the camera's z so the box bottom stays in
frame.  (The `distance` parameter of the source is unused by its body.) -/
def _position_camera_for_sprite_sheet (g : GlobalBBoxT)
    (padding render_padding : ℚ) : Camera :=
  let character_size := max g.width g.height
  let base_scale := character_size * padding
  let padding_world_units := render_padding * (1/100)
  let ortho := base_scale + padding_world_units
  let required_distance := character_size * padding * (1/2)
  let loc : Vec3 := ⟨-required_distance, g.center.y, g.center.z⟩
  let dir : Vec3 := ⟨g.center.x - loc.x, g.center.y - loc.y, g.center.z - loc.z⟩
  let half_scale := ortho / 2
  { loc := ⟨loc.x, loc.y, g.min_z + half_scale⟩, track := dir,
    ortho_scale := ortho }

/-- `_update_camera_for_frame`: recenters the camera on the root bone's world
position (or the frame bounding-box center when the armature has no pose
bones), keeping the current camera distance `abs(location.x)`, and re-aims
at that center.  The orthographic scale is not touched. -/
def _update_camera_for_frame (cam : Camera) (rootPos : Option Vec3)
    (bbox : FrameBBox) : Camera :=
  let center : Vec3 :=
    match rootPos with
    | some p => p
    | none => ⟨(bbox.min_x + bbox.max_x) / 2, (bbox.min_y + bbox.max_y) / 2,
               (bbox.min_z + bbox.max_z) / 2⟩
  let current_distance := |cam.loc.x|
  let loc : Vec3 := ⟨-current_distance, center.y, center.z⟩
  let dir : Vec3 := ⟨center.x - loc.x, center.y - loc.y, center.z - loc.z⟩
  { loc := loc, track := dir, ortho_scale := cam.ortho_scale }

/-- Camera trajectory of `_render_frames_with_poses`: each rendered frame
first runs `_update_camera_for_frame`; the listed states are the camera at
each frame's render call. -/
def render_frames_cameras (cam : Camera) :
    List (Option Vec3 × FrameBBox) → List Camera
  | [] => []
  | f :: rest =>
    let cam1 := _update_camera_for_frame cam f.1 f.2
    cam1 :: render_frames_cameras cam1 rest

/-! ### Global bounding-box accumulation
(`renderer/scripts/render.py`, `_calculate_global_bbox_and_poses`)

The running bounds start at `float('inf')` / `float('-inf')`; `none` models
the infinite start value, so `min(inf, q) = q` and `max(-inf, q) = q`. -/

def minInf (acc : Option ℚ) (q : ℚ) : Option ℚ :=
  match acc with
  | none => some q
  | some a => some (min a q)

def maxInf (acc : Option ℚ) (q : ℚ) : Option ℚ :=
  match acc with
  | none => some q
  | some a => some (max a q)

structure BBoxAcc where
  gminx : Option ℚ
  gmaxx : Option ℚ
  gminy : Option ℚ
  gmaxy : Option ℚ
  gminz : Option ℚ
  gmaxz : Option ℚ
deriving DecidableEq

def bboxStep (acc : BBoxAcc) (b : FrameBBox) : BBoxAcc :=
  ⟨minInf acc.gminx b.min_x, maxInf acc.gmaxx b.max_x,
   minInf acc.gminy b.min_y, maxInf acc.gmaxy b.max_y,
   minInf acc.gminz b.min_z, maxInf acc.gmaxz b.max_z⟩

def bboxLoop (bs : List FrameBBox) : BBoxAcc :=
  bs.foldl bboxStep ⟨none, none, none, none, none, none⟩

/-- The final `global_bbox` packing of `_calculate_global_bbox_and_poses`:
`width/height/depth` spans and the midpoint `center`.  `none` corresponds to
the degenerate zero-frame run, where the source would build the tuple out of
infinities. -/
def calc_global_bbox (bs : List FrameBBox) : Option GlobalBBoxT :=
  let acc := bboxLoop bs
  match acc.gminx, acc.gmaxx, acc.gminy, acc.gmaxy, acc.gminz, acc.gmaxz with
  | some mnx, some mxx, some mny, some mxy, some mnz, some mxz =>
    some { width := mxx - mnx, height := mxz - mnz,
           center := ⟨(mnx + mxx) / 2, (mny + mxy) / 2, (mnz + mxz) / 2⟩,
           min_z := mnz, max_z := mxz, depth := mxy - mny }
  | _, _, _, _, _, _ => none

/-! ### Purge pass (`temp/renderer/cli.py`, `_purge_errors`)

Filesystem effects are recorded as an operation trace: `shutil.copy2` into
the purge directory, then `os.remove` of the original. -/

inductive FsOp where
  | copy (src dst : String)
  | remove (src : String)
deriving DecidableEq

def purgeLoop (purge_dir : String) :
    List RenderJobResult → List String → ℕ → List FsOp →
    ℕ × List String × List FsOp
  | [], purged, count, ops => (count, purged, ops)
  | r :: rest, purged, count, ops =>
    if r.error then
      let bad := r.job.source_path
      if bad ∈ purged then
        purgeLoop purge_dir rest purged count ops
      else
        purgeLoop purge_dir rest (purged ++ [bad]) (count + 1)
          (ops ++ [.copy bad purge_dir, .remove bad])
    else
      purgeLoop purge_dir rest purged count ops

def _purge_errors (purge_dir : String) (results : List RenderJobResult) :
    ℕ × List String × List FsOp :=
  purgeLoop purge_dir results [] 0 []

/-- The source paths of all error results, in order, with repetition. -/
def errorSources (results : List RenderJobResult) : List String :=
  (results.filter (fun r => r.error)).map (fun r => r.job.source_path)

/-- Specification artifact for reasoning about `purgeLoop`: the source paths
the loop will newly purge, given the paths already purged. -/
def newOnes (purged : List String) : List RenderJobResult → List String
  | [] => []
  | r :: rest =>
    if r.error then
      if r.job.source_path ∈ purged then newOnes purged rest
      else r.job.source_path :: newOnes (purged ++ [r.job.source_path]) rest
    else newOnes purged rest

/-! ### Skeleton topology and stick-figure projection (`renderer/pose.py`)

A pose is a dict from joint name to an entry that may carry a `"location"`
list; dicts are modelled as association lists in insertion order, looked up
by first key match (keys are unique in every produced dict). -/

def JOINT_SUFFIXES : List String :=
  ["Hips", "Spine", "Spine1", "Spine2", "Neck", "Head",
   "LeftShoulder", "LeftArm", "LeftForeArm", "LeftHand",
   "LeftUpLeg", "LeftLeg", "LeftFoot", "LeftToeBase",
   "RightShoulder", "RightArm", "RightForeArm", "RightHand",
   "RightUpLeg", "RightLeg", "RightFoot", "RightToeBase"]

def BONE_CONNECTION_SUFFIXES : List (String × String) :=
  [("Spine", "Hips"), ("Spine1", "Spine"), ("Spine2", "Spine1"),
   ("Neck", "Spine2"), ("Head", "Neck"),
   ("LeftShoulder", "Spine2"), ("LeftArm", "LeftShoulder"),
   ("LeftForeArm", "LeftArm"), ("LeftHand", "LeftForeArm"),
   ("RightShoulder", "Spine2"), ("RightArm", "RightShoulder"),
   ("RightForeArm", "RightArm"), ("RightHand", "RightForeArm"),
   ("LeftUpLeg", "Hips"), ("LeftLeg", "LeftUpLeg"),
   ("LeftFoot", "LeftLeg"), ("LeftToeBase", "LeftFoot"),
   ("RightUpLeg", "Hips"), ("RightLeg", "RightUpLeg"),
   ("RightFoot", "RightLeg"), ("RightToeBase", "RightFoot")]

def BODY_PART_MAPPING : List (String × String) :=
  [("LeftUpLeg", "left_leg"), ("LeftLeg", "left_leg"),
   ("LeftFoot", "left_leg"), ("LeftToeBase", "left_leg"),
   ("RightUpLeg", "right_leg"), ("RightLeg", "right_leg"),
   ("RightFoot", "right_leg"), ("RightToeBase", "right_leg"),
   ("LeftShoulder", "left_arm"), ("LeftArm", "left_arm"),
   ("LeftForeArm", "left_arm"), ("LeftHand", "left_arm"),
   ("RightShoulder", "right_arm"), ("RightArm", "right_arm"),
   ("RightForeArm", "right_arm"), ("RightHand", "right_arm"),
   ("Hips", "torso"), ("Spine", "torso"), ("Spine1", "torso"),
   ("Spine2", "torso"), ("Neck", "head"), ("Head", "head")]

abbrev RGB := ℕ × ℕ × ℕ

def BODY_PART_COLORS : List (String × RGB) :=
  [("left_leg", (255, 0, 0)), ("right_leg", (0, 255, 0)),
   ("left_arm", (0, 0, 255)), ("right_arm", (255, 255, 0)),
   ("torso", (255, 0, 255)), ("head", (0, 255, 255))]

def JOINT_COLORS : List (String × RGB) :=
  [("left_leg", (255, 128, 128)), ("right_leg", (128, 255, 128)),
   ("left_arm", (128, 128, 255)), ("right_arm", (255, 255, 128)),
   ("torso", (255, 128, 255)), ("head", (128, 255, 255))]

def joint_color (suffix : String) : RGB :=
  let body_part := (BODY_PART_MAPPING.lookup suffix).getD "torso"
  (JOINT_COLORS.lookup body_part).getD (255, 255, 255)

def bone_color (suffix : String) : RGB :=
  let body_part := (BODY_PART_MAPPING.lookup suffix).getD "torso"
  (BODY_PART_COLORS.lookup body_part).getD (255, 255, 255)

structure PoseEntry where
  location : Option (List ℚ)
deriving DecidableEq

abbrev Pose := List (String × PoseEntry)

/-- `min` of a non-empty Python list, given as head and tail. -/
def qListMin (a : ℚ) (l : List ℚ) : ℚ := l.foldl min a

/-- `max` of a non-empty Python list, given as head and tail. -/
def qListMax (a : ℚ) (l : List ℚ) : ℚ := l.foldl max a

/-- `hips[1] if hips else fallback`: the horizontal-centering reference used
by `project_points_yz`. -/
def hipsYOf (hips : Option Vec3) (fallback : ℚ) : ℚ :=
  match hips with
  | some p => p.y
  | none => fallback

def find_joint_by_suffix (pose : Pose) (suffix : String) : Option String :=
  (pose.find? (fun kv => pyEndsWith kv.1 (":" ++ suffix))).map (fun kv => kv.1)

/-- The `suffix_to_name` dict built at the top of `render_stick_image`. -/
def suffix_to_name (pose : Pose) : List (String × String) :=
  JOINT_SUFFIXES.filterMap
    (fun sfx => (find_joint_by_suffix pose sfx).map (fun n => (sfx, n)))

/-- The `joint_to_loc` dict of `render_stick_image`: locations of the found
joints whose entry has a 3-element `"location"`. -/
def joint_to_loc (pose : Pose) : List (String × Vec3) :=
  (suffix_to_name pose).filterMap
    (fun kv =>
      match pose.lookup kv.2 with
      | some entry =>
        match entry.location with
        | some [a, b, c] => some (kv.2, (⟨a, b, c⟩ : Vec3))
        | _ => none
      | none => none)

/-- `project_points_yz`: drop the x axis, center horizontally on the joint
named exactly `"mixamorig1:Hips"` when present (else on the midpoint of the
y extents), fit with the smaller of the two axis scales, flip vertically,
and round every coordinate with Python `round`. -/
def project_points_yz (jl : List (String × Vec3)) (width height padding : ℤ) :
    List (String × (ℤ × ℤ)) :=
  match jl with
  | [] => []
  | j0 :: rest =>
    let min_z := qListMin j0.2.z (rest.map (fun kv => kv.2.z))
    let max_z := qListMax j0.2.z (rest.map (fun kv => kv.2.z))
    let hips := (j0 :: rest).lookup "mixamorig1:Hips"
    let hips_y :=
      hipsYOf hips
        ((qListMin j0.2.y (rest.map (fun kv => kv.2.y)) +
          qListMax j0.2.y (rest.map (fun kv => kv.2.y))) * (1/2))
    let max_abs_y_off :=
      qListMax |j0.2.y - hips_y| (rest.map (fun kv => |kv.2.y - hips_y|))
    let span_y_sym := max (2 * max_abs_y_off) (1/100000)
    let span_z := max (max_z - min_z) (1/100000)
    let scale_x := ((width : ℚ) - 2 * (padding : ℚ)) / span_y_sym
    let scale_y := ((height : ℚ) - 2 * (padding : ℚ)) / span_z
    let scale := min scale_x scale_y
    (j0 :: rest).map
      (fun kv =>
        let u := (hips_y - kv.2.y) * scale + (width : ℚ) / 2
        let v_scene := (kv.2.z - min_z) * scale + (padding : ℚ)
        let v := (height : ℚ) - v_scene
        (kv.1, (pyRound u, pyRound v)))

/-- One drawing primitive issued on the output image. -/
inductive DrawCmd where
  | line (p0 p1 : ℤ × ℤ) (color : RGB) (width : ℕ)
  | ellipse (x0 y0 x1 y1 : ℚ) (color : RGB)
deriving DecidableEq

def DrawCmd.isLine : DrawCmd → Bool
  | .line _ _ _ _ => true
  | .ellipse _ _ _ _ _ => false

def DrawCmd.isEllipse : DrawCmd → Bool
  | .line _ _ _ _ => false
  | .ellipse _ _ _ _ _ => true

/-- Horizontal center of a drawing primitive. -/
def DrawCmd.centerX : DrawCmd → ℚ
  | .line p0 p1 _ _ => ((p0.1 : ℚ) + (p1.1 : ℚ)) / 2
  | .ellipse x0 _ x1 _ _ => (x0 + x1) / 2

/-- `render_stick_image` as its trace of drawing commands on the fresh
transparent image: bone lines first, then joint ellipses. -/
def render_stick_image (img_w img_h : ℤ) (pose : Pose) (line_width : ℕ)
    (joint_radius : ℚ) (padding : ℤ) : List DrawCmd :=
  let s2n := suffix_to_name pose
  let jl := joint_to_loc pose
  let points := project_points_yz jl img_w img_h padding
  let bones := BONE_CONNECTION_SUFFIXES.filterMap
    (fun cp =>
      match s2n.lookup cp.1, s2n.lookup cp.2 with
      | some child_name, some parent_name =>
        match points.lookup child_name, points.lookup parent_name with
        | some p0, some p1 => some (DrawCmd.line p0 p1 (bone_color cp.1) line_width)
        | _, _ => none
      | _, _ => none)
  let joints := points.filterMap
    (fun kv =>
      match JOINT_SUFFIXES.find? (fun s => pyEndsWith kv.1 (":" ++ s)) with
      | some sfx =>
        some (DrawCmd.ellipse ((kv.2.1 : ℚ) - joint_radius)
          ((kv.2.2 : ℚ) - joint_radius) ((kv.2.1 : ℚ) + joint_radius)
          ((kv.2.2 : ℚ) + joint_radius) (joint_color sfx))
      | none => none)
  bones ++ joints

/-! ## Helper lemmas -/

theorem pyRound_intCast (n : ℤ) : pyRound (n : ℚ) = n := by
  simp [pyRound, Int.floor_intCast]

theorem except_bind_ok {α β : Type} (a : α) (f : α → Except String β) :
    (Except.ok a : Except String α).bind f = f a := rfl

theorem except_bind_error {α β : Type} (e : String) (f : α → Except String β) :
    (Except.error e : Except String α).bind f = .error e := rfl

theorem resizeNearest_ok (img : Img) (w2 h2 : ℕ) (hw : 1 ≤ w2) (hh : 1 ≤ h2) :
    ∃ out, resizeNearest img w2 h2 = .ok out ∧ out.w = w2 ∧ out.h = h2 := by
  unfold resizeNearest
  rw [if_neg (by omega)]
  by_cases hsame : w2 = img.w ∧ h2 = img.h
  · rw [if_pos hsame]
    exact ⟨img, rfl, hsame.1.symm, hsame.2.symm⟩
  · rw [if_neg hsame]
    exact ⟨_, rfl, rfl, rfl⟩

theorem resizeNearest_same (img : Img) (hw : 1 ≤ img.w) (hh : 1 ≤ img.h) :
    resizeNearest img img.w img.h = .ok img := by
  unfold resizeNearest
  rw [if_neg (by omega), if_pos ⟨rfl, rfl⟩]

/-- `errorSources` unfolded one result at a time. -/
theorem errorSources_cons (r : RenderJobResult) (rest : List RenderJobResult) :
    errorSources (r :: rest) =
      if r.error then r.job.source_path :: errorSources rest
      else errorSources rest := by
  simp only [errorSources, List.filter_cons]
  by_cases he : r.error
  · simp [he]
  · simp [he]

theorem purgeLoop_eq (pd : String) (rs : List RenderJobResult) :
    ∀ (purged : List String) (count : ℕ) (ops : List FsOp),
    purgeLoop pd rs purged count ops =
      (count + (newOnes purged rs).length, purged ++ newOnes purged rs,
       ops ++ (newOnes purged rs).flatMap (fun s => [FsOp.copy s pd, FsOp.remove s])) := by
  induction rs with
  | nil => intro purged count ops; simp [purgeLoop, newOnes]
  | cons r rest ih =>
    intro purged count ops
    by_cases he : r.error = true
    · by_cases hb : r.job.source_path ∈ purged
      · rw [show purgeLoop pd (r :: rest) purged count ops
            = purgeLoop pd rest purged count ops by simp [purgeLoop, he, hb]]
        rw [show newOnes purged (r :: rest) = newOnes purged rest by
          simp [newOnes, he, hb]]
        exact ih purged count ops
      · rw [show purgeLoop pd (r :: rest) purged count ops
            = purgeLoop pd rest (purged ++ [r.job.source_path]) (count + 1)
                (ops ++ [FsOp.copy r.job.source_path pd, FsOp.remove r.job.source_path]) by
            simp [purgeLoop, he, hb]]
        rw [show newOnes purged (r :: rest)
            = r.job.source_path :: newOnes (purged ++ [r.job.source_path]) rest by
            simp [newOnes, he, hb]]
        rw [ih]
        refine congrArg₂ Prod.mk ?_ (congrArg₂ Prod.mk ?_ ?_)
        · simp only [List.length_cons]
          omega
        · simp
        · simp [List.flatMap_cons]
    · rw [show purgeLoop pd (r :: rest) purged count ops
          = purgeLoop pd rest purged count ops by simp [purgeLoop, he]]
      rw [show newOnes purged (r :: rest) = newOnes purged rest by simp [newOnes, he]]
      exact ih purged count ops

theorem newOnes_mem (rs : List RenderJobResult) :
    ∀ purged s, s ∈ newOnes purged rs ↔ s ∉ purged ∧ s ∈ errorSources rs := by
  induction rs with
  | nil => intro purged s; simp [newOnes, errorSources]
  | cons r rest ih =>
    intro purged s
    rw [errorSources_cons]
    by_cases he : r.error = true
    · rw [if_pos he]
      by_cases hb : r.job.source_path ∈ purged
      · rw [show newOnes purged (r :: rest) = newOnes purged rest by
          simp [newOnes, he, hb]]
        rw [ih]
        constructor
        · rintro ⟨hnp, hmem⟩
          exact ⟨hnp, List.mem_cons_of_mem _ hmem⟩
        · rintro ⟨hnp, hmem⟩
          rcases List.mem_cons.mp hmem with heq | hmem
          · subst heq
            exact (hnp hb).elim
          · exact ⟨hnp, hmem⟩
      · rw [show newOnes purged (r :: rest)
            = r.job.source_path :: newOnes (purged ++ [r.job.source_path]) rest by
            simp [newOnes, he, hb]]
        rw [List.mem_cons, ih, List.mem_cons]
        by_cases hs : s = r.job.source_path
        · subst hs
          simp [hb]
        · simp only [hs, false_or]
          constructor
          · rintro ⟨hnp, hmem⟩
            exact ⟨fun hc => hnp (List.mem_append_left _ hc), hmem⟩
          · rintro ⟨hnp, hmem⟩
            refine ⟨fun hc => ?_, hmem⟩
            rcases List.mem_append.mp hc with h1 | h1
            · exact hnp h1
            · rw [List.mem_singleton] at h1
              exact hs h1
    · rw [if_neg he]
      rw [show newOnes purged (r :: rest) = newOnes purged rest by simp [newOnes, he]]
      exact ih purged s

theorem newOnes_nodup (rs : List RenderJobResult) :
    ∀ purged : List String, purged.Nodup → (purged ++ newOnes purged rs).Nodup := by
  induction rs with
  | nil => intro purged hp; simpa [newOnes] using hp
  | cons r rest ih =>
    intro purged hp
    by_cases he : r.error = true
    · by_cases hb : r.job.source_path ∈ purged
      · simp only [newOnes, he, if_true, if_pos hb]
        exact ih purged hp
      · simp only [newOnes, he, if_true, if_neg hb]
        rw [show purged ++ r.job.source_path :: newOnes (purged ++ [r.job.source_path]) rest
            = (purged ++ [r.job.source_path]) ++ newOnes (purged ++ [r.job.source_path]) rest by
          simp]
        refine ih (purged ++ [r.job.source_path]) ?_
        simp [List.nodup_append, hp, hb]
    · simp only [Bool.not_eq_true] at he
      simp only [newOnes, he, Bool.false_eq_true, if_false]
      exact ih purged hp

theorem string_append_ne_empty (s t : String) (hs : s.length ≠ 0) : s ++ t ≠ "" := by
  intro h
  have hl := congrArg String.length h
  rw [String.length_append] at hl
  have : String.length "" = 0 := rfl
  omega

theorem foldl_bboxStep_somes (bs : List FrameBBox) :
    ∀ q1 q2 q3 q4 q5 q6 : ℚ,
    bs.foldl bboxStep ⟨some q1, some q2, some q3, some q4, some q5, some q6⟩ =
      ⟨some ((bs.map FrameBBox.min_x).foldl min q1),
       some ((bs.map FrameBBox.max_x).foldl max q2),
       some ((bs.map FrameBBox.min_y).foldl min q3),
       some ((bs.map FrameBBox.max_y).foldl max q4),
       some ((bs.map FrameBBox.min_z).foldl min q5),
       some ((bs.map FrameBBox.max_z).foldl max q6)⟩ := by
  induction bs with
  | nil => intro q1 q2 q3 q4 q5 q6; simp
  | cons c rest ih =>
    intro q1 q2 q3 q4 q5 q6
    simp only [List.foldl_cons, List.map_cons, bboxStep, minInf, maxInf]
    exact ih _ _ _ _ _ _

theorem hipsYOf_some (p : Vec3) (fb : ℚ) : hipsYOf (some p) fb = p.y := rfl

theorem hipsYOf_none (fb : ℚ) : hipsYOf none fb = fb := rfl

theorem lookup_map_fn (F : String × Vec3 → String × (ℤ × ℤ))
    (hF : ∀ kv, (F kv).1 = kv.1) (k : String) :
    ∀ (l : List (String × Vec3)) (p : Vec3), l.lookup k = some p →
      (l.map F).lookup k = some (F (k, p)).2 := by
  intro l
  induction l with
  | nil => intro p hp; simp at hp
  | cons kv rest ih =>
    intro p hp
    obtain ⟨k1, v1⟩ := kv
    rw [List.map_cons]
    obtain ⟨fk, fv, hFp⟩ : ∃ fk fv, F (k1, v1) = (fk, fv) :=
      ⟨(F (k1, v1)).1, (F (k1, v1)).2, rfl⟩
    have hk1 : fk = k1 := by
      have := hF (k1, v1)
      rw [hFp] at this
      exact this
    rw [hFp]
    cases hbeq : (k == k1) with
    | true =>
      have hk : k = k1 := eq_of_beq hbeq
      simp only [List.lookup, hk1, hbeq] at hp ⊢
      obtain rfl : v1 = p := by simpa using hp
      rw [hk, hFp]
    | false =>
      simp only [List.lookup, hk1, hbeq] at hp ⊢
      exact ih p hp

/-! ## Claims -/

/-- C4, counterexample: for a source with 3 total frames at scene rate 2 and
target rate 1, the frame-count script returns `int(3 / 2 * 1) = 1`, while the
spec formula `round(3 / 2 * 1)` gives 2. -/
theorem c4_not_python_round :
    count_frames_main ⟨true, true, 1, 3, 2⟩ 1 = .ok 1 ∧
    specCountFrames 3 2 1 = 2 ∧ (1 : ℤ) ≠ 2 := by
  have hf : ⌊(3 : ℚ)/2⌋ = 1 := by
    rw [Int.floor_eq_iff]
    norm_num
  refine ⟨?_, ?_, by decide⟩
  · simp only [count_frames_main]
    norm_num
    rw [truncQ, if_pos (by norm_num)]
    norm_num [hf]
  · simp only [specCountFrames]
    norm_num
    rw [pyRound, if_neg (by rw [hf]; norm_num), if_neg (by rw [hf]; norm_num),
      if_neg (by rw [hf]; decide), hf]
    norm_num

/-- C4, amended: with the source armature present and animated, the
frame-count script returns the estimate truncated toward zero,
`int(total_frames / scene_fps * fps)`; for non-negative inputs this is the
floor, not Python `round`, of `total_frames / scene_fps * fps`. -/
theorem c4_truncated_estimate (scene : CountScene) (fps : ℤ)
    (h1 : scene.hasArmature = true) (h2 : scene.hasAnimation = true)
    (hfps : 0 < scene.scene_fps)
    (hn : 0 ≤ scene.frame_end - scene.frame_start + 1) (hf : 0 ≤ fps) :
    count_frames_main scene fps =
      .ok ⌊((scene.frame_end - scene.frame_start + 1 : ℤ) : ℚ)
            / (scene.scene_fps : ℚ) * (fps : ℚ)⌋ := by
  have ha : (0 : ℚ) ≤ ((scene.frame_end - scene.frame_start + 1 : ℤ) : ℚ) := by
    exact_mod_cast hn
  have hb : (0 : ℚ) ≤ (scene.scene_fps : ℚ) := by exact_mod_cast hfps.le
  have hcq : (0 : ℚ) ≤ (fps : ℚ) := by exact_mod_cast hf
  have hq := mul_nonneg (div_nonneg ha hb) hcq
  simp only [count_frames_main, h1, h2]
  simp only [not_true, if_false, ite_false, Except.ok.injEq]
  rw [truncQ, if_pos hq]

/-- C4, witness for the amended theorem at total frames 3, scene rate 2,
target rate 1. -/
theorem c4_truncated_estimate_witness :
    count_frames_main ⟨true, true, 1, 3, 2⟩ 1 =
      .ok ⌊(((3 : ℤ) - 1 + 1 : ℤ) : ℚ) / ((2 : ℤ) : ℚ) * ((1 : ℤ) : ℚ)⌋ :=
  c4_truncated_estimate ⟨true, true, 1, 3, 2⟩ 1 rfl rfl (by norm_num)
    (by norm_num) (by norm_num)

/-- C1: `render_job_iter` cannot yield a single job — the `RenderJob`
dataclass has five fields and no `pixel_size`, so the six-argument
construction raises `TypeError` at the first (source, target) pair instead
of yielding S×T jobs carrying the block size. -/
theorem c1_render_job_missing_pixel_size :
    render_job_iter (some ["walk.fbx"]) (some ["hero.fbx"]) "dataset" 128 8 4
      = .error "TypeError: __init__ takes a fixed number of positional arguments" ∧
    renderJobFields.length = 5 ∧ "pixel_size" ∉ renderJobFields :=
  ⟨rfl, rfl, by decide⟩

/-- C2, counterexample: a job whose frame-count subprocess exits non-zero
makes the worker loop body raise `CalledProcessError` out of the loop; no
`RenderJobResult` is pushed for that job. -/
theorem c2_count_failure_escapes_worker :
    worker_step ⟨"walk.fbx", "hero.fbx", "out", 128, 8⟩ ⟨⟨1, ""⟩, none, 0⟩ false
      = .error "CalledProcessError: command returned non-zero exit status" ∧
    (worker_step ⟨"walk.fbx", "hero.fbx", "out", 128, 8⟩
      ⟨⟨1, ""⟩, none, 0⟩ false).isOk = false :=
  ⟨rfl, rfl⟩

/-- C2, amended: whenever the frame-count query itself succeeds, the worker
pushes exactly one result for the popped job, and zero-frame jobs as well as
every exception raised during render/projection/pixelation are converted
into an error result rather than raised; a frame-count query failure,
however, escapes the loop (see the counterexample). -/
theorem c2_result_when_count_succeeds (job : RenderJob) (env : WorkerEnv)
    (count_only : Bool) (n : ℤ)
    (hc : call_count_frames_script env.countProc = .ok n) :
    ∃ r p, worker_step job env count_only = .ok (r, p) ∧ r.job = job ∧
      r.frames_rendered = n ∧
      (r.error = true ↔ n = 0 ∨ (count_only = false ∧ env.renderExc.isSome = true)) := by
  simp only [worker_step, hc, except_bind_ok]
  by_cases h0 : n = 0
  · subst h0
    simp
  · rw [if_neg h0]
    cases count_only
    · cases hre : env.renderExc with
      | none => simp [h0, hre]
      | some e => simp [h0, hre]
    · simp [h0]

/-- C2, witness: a render-phase exception with a successful frame count is
converted into exactly one error result. -/
theorem c2_result_when_count_succeeds_witness :
    ∃ r p, worker_step ⟨"walk.fbx", "hero.fbx", "out", 128, 8⟩
        ⟨⟨0, "5"⟩, some "boom", 7⟩ false = .ok (r, p) ∧
      r.job = ⟨"walk.fbx", "hero.fbx", "out", 128, 8⟩ ∧
      r.frames_rendered = 5 ∧
      (r.error = true ↔ (5 : ℤ) = 0 ∨ (false = false ∧ (some "boom").isSome = true)) :=
  c2_result_when_count_succeeds ⟨"walk.fbx", "hero.fbx", "out", 128, 8⟩
    ⟨⟨0, "5"⟩, some "boom", 7⟩ false 5 rfl

/-- C3, counterexample: in `count_only` mode a successful job reports
`frames_rendered = 5` — the estimator's output — although zero frames were
actually produced, so `frames_rendered` is not the count of frames actually
produced. -/
theorem c3_frames_rendered_is_estimate :
    worker_step ⟨"walk.fbx", "hero.fbx", "out", 128, 8⟩ ⟨⟨0, "5"⟩, none, 0⟩ true
      = .ok (⟨⟨"walk.fbx", "hero.fbx", "out", 128, 8⟩, 5, false, ""⟩, 0) ∧
    (5 : ℤ) ≠ ((0 : ℕ) : ℤ) :=
  ⟨rfl, by decide⟩

/-- C3, amended: when the frame-count query succeeds with a non-negative
estimate `n`, the pushed result is fully filled with `frames_rendered = n`
(the estimate, not the frames actually produced), its message is empty
exactly when the error flag is clear, and a non-error result has
`frames_rendered ≥ 1`. -/
theorem c3_result_fully_filled (job : RenderJob) (env : WorkerEnv)
    (count_only : Bool) (n : ℤ)
    (hc : call_count_frames_script env.countProc = .ok n) (hn : 0 ≤ n) :
    ∃ r p, worker_step job env count_only = .ok (r, p) ∧
      r.frames_rendered = n ∧
      (r.error_message = "" ↔ r.error = false) ∧
      (r.error = false → 1 ≤ r.frames_rendered) := by
  simp only [worker_step, hc, except_bind_ok]
  by_cases h0 : n = 0
  · subst h0
    refine ⟨_, _, by rw [if_pos rfl], rfl, ?_, ?_⟩
    · simp
    · simp
  · rw [if_neg h0]
    cases count_only
    · cases hre : env.renderExc with
      | none =>
        refine ⟨_, _, rfl, rfl, by simp, fun _ => by show (1:ℤ) ≤ n; omega⟩
      | some e =>
        refine ⟨_, _, rfl, rfl, ?_, by simp⟩
        simp only [Bool.true_eq_false, iff_false]
        exact string_append_ne_empty "Render failed: " e (by decide)
    · exact ⟨_, _, rfl, rfl, by simp, fun _ => by show (1:ℤ) ≤ n; omega⟩

/-- C3, witness: a successful non-count-only job with estimate 5. -/
theorem c3_result_fully_filled_witness :
    ∃ r p, worker_step ⟨"walk.fbx", "hero.fbx", "out", 128, 8⟩
        ⟨⟨0, "5"⟩, none, 3⟩ false = .ok (r, p) ∧
      r.frames_rendered = 5 ∧
      (r.error_message = "" ↔ r.error = false) ∧
      (r.error = false → 1 ≤ r.frames_rendered) :=
  c3_result_fully_filled ⟨"walk.fbx", "hero.fbx", "out", 128, 8⟩
    ⟨⟨0, "5"⟩, none, 3⟩ false 5 rfl (by decide)

/-- C8, counterexample: on a 2×2 image with block size 3 the downsample
target is 0×0, so the filter raises instead of producing an output with the
input's dimensions — "for every k ≥ 1" does not hold. -/
theorem c8_oversized_block_raises :
    pixelizeFrame ⟨2, 2, fun _ _ => 0⟩ 3
      = .error "ValueError: height and width must be greater than 0" := rfl

/-- C8, amended: for every image and block size k with 1 ≤ k ≤ width and
k ≤ height, the pixelation filter succeeds and preserves both dimensions,
and with k = 1 the output equals the input byte for byte. -/
theorem c8_preserves_dims_and_k1_identity (img : Img) (k : ℕ) (hk : 1 ≤ k)
    (hw : k ≤ img.w) (hh : k ≤ img.h) :
    ∃ out, pixelizeFrame img k = .ok out ∧ out.w = img.w ∧ out.h = img.h ∧
      (k = 1 → sameImage out img) := by
  have hw1 : 1 ≤ img.w / k := (Nat.one_le_div_iff (by omega)).mpr hw
  have hh1 : 1 ≤ img.h / k := (Nat.one_le_div_iff (by omega)).mpr hh
  obtain ⟨pix, hpix, hpw, hph⟩ := resizeNearest_ok img (img.w / k) (img.h / k) hw1 hh1
  obtain ⟨out, hout, how, hoh⟩ := resizeNearest_ok pix img.w img.h (by omega) (by omega)
  refine ⟨out, ?_, how, hoh, ?_⟩
  · simp only [pixelizeFrame, hpix, except_bind_ok, hout]
  · intro hk1
    subst hk1
    rw [Nat.div_one, Nat.div_one] at hpix
    rw [resizeNearest_same img (by omega) (by omega)] at hpix
    obtain rfl : img = pix := Except.ok.inj hpix
    rw [resizeNearest_same img (by omega) (by omega)] at hout
    obtain rfl : img = out := Except.ok.inj hout
    exact ⟨rfl, rfl, fun x y _ _ => rfl⟩

/-- C8, witness for the amended theorem: a 2×2 image with k = 1 comes back
unchanged. -/
theorem c8_preserves_dims_and_k1_identity_witness :
    ∃ out, pixelizeFrame ⟨2, 2, fun _ _ => 9⟩ 1 = .ok out ∧
      out.w = 2 ∧ out.h = 2 ∧ (1 = 1 → sameImage out ⟨2, 2, fun _ _ => 9⟩) :=
  c8_preserves_dims_and_k1_identity ⟨2, 2, fun _ _ => 9⟩ 1 (by decide) (by decide)
    (by decide)

/-- C10: the pixelation filter is total exactly when the block size fits both
dimensions — a width or height strictly smaller than k makes the downsample
target zero-sized and the filter raises `ValueError`; with width ≥ k and
height ≥ k it succeeds. -/
theorem c10_pixelize_totality (img : Img) (k : ℕ) (hk : 1 ≤ k) :
    ((img.w < k ∨ img.h < k) →
      pixelizeFrame img k = .error "ValueError: height and width must be greater than 0") ∧
    (k ≤ img.w → k ≤ img.h → ∃ out, pixelizeFrame img k = .ok out) := by
  constructor
  · intro hlt
    have hz : img.w / k < 1 ∨ img.h / k < 1 := by
      rcases hlt with h | h
      · exact Or.inl (by rw [Nat.div_eq_of_lt h]; omega)
      · exact Or.inr (by rw [Nat.div_eq_of_lt h]; omega)
    rw [pixelizeFrame, resizeNearest, if_pos hz, except_bind_error]
  · intro hw hh
    have hw1 : 1 ≤ img.w / k := (Nat.one_le_div_iff (by omega)).mpr hw
    have hh1 : 1 ≤ img.h / k := (Nat.one_le_div_iff (by omega)).mpr hh
    obtain ⟨pix, hpix, hpw, hph⟩ := resizeNearest_ok img (img.w / k) (img.h / k) hw1 hh1
    obtain ⟨out, hout, _, _⟩ := resizeNearest_ok pix img.w img.h (by omega) (by omega)
    exact ⟨out, by simp only [pixelizeFrame, hpix, except_bind_ok, hout]⟩

/-- C10, witness: a 2×2 image with block size 3 raises. -/
theorem c10_pixelize_totality_witness :
    pixelizeFrame ⟨2, 2, fun _ _ => 5⟩ 3
      = .error "ValueError: height and width must be greater than 0" :=
  (c10_pixelize_totality ⟨2, 2, fun _ _ => 5⟩ 3 (by decide)).1 (Or.inl (by decide))

/-- C9: the purge pass relocates each distinct source path appearing in
error results exactly once — the relocated set is duplicate-free, contains
exactly the error sources, the returned count is its size, and the
filesystem trace is one copy-into-purge-directory followed by one delete per
relocated path. -/
theorem c9_purge_each_distinct_source_once (pd : String)
    (results : List RenderJobResult) :
    (_purge_errors pd results).1 = (_purge_errors pd results).2.1.length ∧
    (_purge_errors pd results).2.1.Nodup ∧
    (∀ s, s ∈ (_purge_errors pd results).2.1 ↔ s ∈ errorSources results) ∧
    (_purge_errors pd results).2.2 =
      (_purge_errors pd results).2.1.flatMap
        (fun s => [FsOp.copy s pd, FsOp.remove s]) := by
  have h := purgeLoop_eq pd results [] 0 []
  unfold _purge_errors
  rw [h]
  refine ⟨by simp, ?_, ?_, by simp⟩
  · simpa using newOnes_nodup results [] List.nodup_nil
  · intro s
    simpa using newOnes_mem results [] s

/-- C6: over a non-empty sequence of per-frame boxes, the accumulated
GlobalBoundingBox is the elementwise min/max fold — its z bounds are the
folds directly, its width/depth/height are the folded x/y/z spans, and its
center is the midpoint of the folded extents on every axis. -/
theorem c6_global_bbox_elementwise_fold (b : FrameBBox) (bs : List FrameBBox) :
    ∃ g, calc_global_bbox (b :: bs) = some g ∧
      g.width = (bs.map FrameBBox.max_x).foldl max b.max_x
        - (bs.map FrameBBox.min_x).foldl min b.min_x ∧
      g.height = (bs.map FrameBBox.max_z).foldl max b.max_z
        - (bs.map FrameBBox.min_z).foldl min b.min_z ∧
      g.depth = (bs.map FrameBBox.max_y).foldl max b.max_y
        - (bs.map FrameBBox.min_y).foldl min b.min_y ∧
      g.min_z = (bs.map FrameBBox.min_z).foldl min b.min_z ∧
      g.max_z = (bs.map FrameBBox.max_z).foldl max b.max_z ∧
      g.center = ⟨((bs.map FrameBBox.min_x).foldl min b.min_x
                    + (bs.map FrameBBox.max_x).foldl max b.max_x) / 2,
                  ((bs.map FrameBBox.min_y).foldl min b.min_y
                    + (bs.map FrameBBox.max_y).foldl max b.max_y) / 2,
                  ((bs.map FrameBBox.min_z).foldl min b.min_z
                    + (bs.map FrameBBox.max_z).foldl max b.max_z) / 2⟩ := by
  have hstep : bboxStep ⟨none, none, none, none, none, none⟩ b
      = ⟨some b.min_x, some b.max_x, some b.min_y, some b.max_y,
         some b.min_z, some b.max_z⟩ := rfl
  have hloop : bboxLoop (b :: bs)
      = ⟨some ((bs.map FrameBBox.min_x).foldl min b.min_x),
         some ((bs.map FrameBBox.max_x).foldl max b.max_x),
         some ((bs.map FrameBBox.min_y).foldl min b.min_y),
         some ((bs.map FrameBBox.max_y).foldl max b.max_y),
         some ((bs.map FrameBBox.min_z).foldl min b.min_z),
         some ((bs.map FrameBBox.max_z).foldl max b.max_z)⟩ := by
    rw [bboxLoop, List.foldl_cons, hstep, foldl_bboxStep_somes]
  simp only [calc_global_bbox, hloop]
  exact ⟨_, rfl, rfl, rfl, rfl, rfl, rfl, rfl⟩

theorem update_camera_root (d s : ℚ) (hd : 0 ≤ d)
    (frames : List (Vec3 × FrameBBox)) :
    ∀ cam : Camera, cam.loc.x = -d → cam.ortho_scale = s →
    render_frames_cameras cam (frames.map (fun f => (some f.1, f.2))) =
      frames.map (fun f =>
        ({ loc := ⟨-d, f.1.y, f.1.z⟩, track := ⟨f.1.x + d, 0, 0⟩,
           ortho_scale := s } : Camera)) := by
  induction frames with
  | nil => intro cam _ _; simp [render_frames_cameras]
  | cons f rest ih =>
    intro cam hx hs
    simp only [List.map_cons, render_frames_cameras]
    have habs : |cam.loc.x| = d := by rw [hx, abs_neg, abs_of_nonneg hd]
    have hup : _update_camera_for_frame cam (some f.1) f.2
        = { loc := ⟨-d, f.1.y, f.1.z⟩, track := ⟨f.1.x + d, 0, 0⟩,
            ortho_scale := s } := by
      simp only [_update_camera_for_frame, habs, hs]
      simp [Camera.mk.injEq, Vec3.mk.injEq, sub_neg_eq_add, sub_self]
    rw [hup]
    exact congrArg (List.cons _) (ih _ rfl rfl)

/-- C5, counterexample: the camera plane sits at the absolute world position
`x = -required_distance`, so a tracked root behind it flips the viewing
direction.  For a 2×2×0 global box centered at the origin with padding 1.1
the setup aims along track x = +11/10; a frame whose root is at (-3, 0, 0)
makes `_update_camera_for_frame` re-aim along track x = -19/10, which is not
a positive multiple of the setup direction — the viewing direction does NOT
remain fixed across frames, refuting the claim as stated. -/
theorem c5_direction_flips :
    ¬ sameDir
      (_position_camera_for_sprite_sheet ⟨2, 2, ⟨0, 0, 0⟩, -1, 1, 0⟩ (11/10) 0).track
      (_update_camera_for_frame
        (_position_camera_for_sprite_sheet ⟨2, 2, ⟨0, 0, 0⟩, -1, 1, 0⟩ (11/10) 0)
        (some ⟨-3, 0, 0⟩) ⟨0, 0, 0, 0, 0, 0⟩).track := by
  have h0 : (_position_camera_for_sprite_sheet
      ⟨2, 2, ⟨0, 0, 0⟩, -1, 1, 0⟩ (11/10) 0).track.x = 11/10 := by
    norm_num [_position_camera_for_sprite_sheet]
  have h1 : (_update_camera_for_frame
      (_position_camera_for_sprite_sheet ⟨2, 2, ⟨0, 0, 0⟩, -1, 1, 0⟩ (11/10) 0)
      (some ⟨-3, 0, 0⟩) ⟨0, 0, 0, 0, 0, 0⟩).track.x = -(19/10) := by
    norm_num [_update_camera_for_frame, _position_camera_for_sprite_sheet,
      abs, max_def]
  rintro ⟨cf, hc, hx, -, -⟩
  rw [h1, h0] at hx
  linarith

/-- C5, amended: within one job the orthographic scale is written only by
`_position_camera_for_sprite_sheet` (from the global bounding box) and every
per-frame camera state carries that same scale; the per-frame update moves
the camera to track the root joint's world position (same x distance, the
root's y and z).  The update also rewrites the camera rotation, and the
viewing direction is preserved only while the global center and every
tracked root stay strictly in front of the fixed camera plane
`x = -required_distance`; a root behind that plane flips it (see the
counterexample). -/
theorem c5_camera_scale_once_position_tracks (g : GlobalBBoxT)
    (padding render_padding : ℚ) (frames : List (Vec3 × FrameBBox))
    (hd : 0 ≤ max g.width g.height * padding) :
    render_frames_cameras (_position_camera_for_sprite_sheet g padding render_padding)
        (frames.map (fun f => (some f.1, f.2))) =
      frames.map (fun f =>
        ({ loc := ⟨-(max g.width g.height * padding * (1/2)), f.1.y, f.1.z⟩,
           track := ⟨f.1.x + max g.width g.height * padding * (1/2), 0, 0⟩,
           ortho_scale :=
             (_position_camera_for_sprite_sheet g padding render_padding).ortho_scale }
          : Camera)) ∧
    (∀ cam ∈ render_frames_cameras
        (_position_camera_for_sprite_sheet g padding render_padding)
        (frames.map (fun f => (some f.1, f.2))),
      cam.ortho_scale
        = (_position_camera_for_sprite_sheet g padding render_padding).ortho_scale) ∧
    (-(max g.width g.height * padding * (1/2)) < g.center.x →
      (∀ f ∈ frames, -(max g.width g.height * padding * (1/2)) < f.1.x) →
      ∀ cam ∈ render_frames_cameras
          (_position_camera_for_sprite_sheet g padding render_padding)
          (frames.map (fun f => (some f.1, f.2))),
        sameDir (_position_camera_for_sprite_sheet g padding render_padding).track
          cam.track) := by
  have hd2 : 0 ≤ max g.width g.height * padding * (1/2) :=
    mul_nonneg hd (by norm_num)
  have hx0 : (_position_camera_for_sprite_sheet g padding render_padding).loc.x
      = -(max g.width g.height * padding * (1/2)) := rfl
  have htraj := update_camera_root (max g.width g.height * padding * (1/2))
    (_position_camera_for_sprite_sheet g padding render_padding).ortho_scale hd2
    frames (_position_camera_for_sprite_sheet g padding render_padding) hx0 rfl
  refine ⟨htraj, ?_, ?_⟩
  · intro cam hm
    rw [htraj] at hm
    obtain ⟨f, hf, rfl⟩ := List.mem_map.mp hm
    rfl
  · intro hgc hx cam hm
    rw [htraj] at hm
    obtain ⟨f, hf, rfl⟩ := List.mem_map.mp hm
    have htrk : (_position_camera_for_sprite_sheet g padding render_padding).track
        = ⟨g.center.x - -(max g.width g.height * padding * (1/2)),
           g.center.y - g.center.y, g.center.z - g.center.z⟩ := rfl
    rw [htrk]
    have hpos1 : 0 < g.center.x + max g.width g.height * padding * (1/2) := by
      linarith
    have hpos2 : 0 < f.1.x + max g.width g.height * padding * (1/2) := by
      have := hx f hf
      linarith
    refine ⟨(f.1.x + max g.width g.height * padding * (1/2))
        / (g.center.x + max g.width g.height * padding * (1/2)),
      div_pos hpos2 hpos1, ?_, ?_, ?_⟩
    · show f.1.x + max g.width g.height * padding * (1/2)
        = _ * (g.center.x - -(max g.width g.height * padding * (1/2)))
      rw [sub_neg_eq_add, div_mul_cancel₀ _ hpos1.ne']
    · show (0 : ℚ) = _ * (g.center.y - g.center.y)
      rw [sub_self, mul_zero]
    · show (0 : ℚ) = _ * (g.center.z - g.center.z)
      rw [sub_self, mul_zero]

/-- C5, witness for the amended theorem: one frame with the root at (0, 1, 1)
under a 2×2×0 global box centered at the origin. -/
theorem c5_camera_scale_once_position_tracks_witness :
    render_frames_cameras
        (_position_camera_for_sprite_sheet ⟨2, 2, ⟨0, 0, 0⟩, -1, 1, 0⟩ (11/10) 0)
        ([((⟨0, 1, 1⟩ : Vec3), (⟨0, 0, 0, 0, 0, 0⟩ : FrameBBox))].map
          (fun f => (some f.1, f.2))) =
      [((⟨0, 1, 1⟩ : Vec3), (⟨0, 0, 0, 0, 0, 0⟩ : FrameBBox))].map
        (fun f =>
          ({ loc := ⟨-(max (2:ℚ) 2 * (11/10) * (1/2)), f.1.y, f.1.z⟩,
             track := ⟨f.1.x + max (2:ℚ) 2 * (11/10) * (1/2), 0, 0⟩,
             ortho_scale := (_position_camera_for_sprite_sheet
               ⟨2, 2, ⟨0, 0, 0⟩, -1, 1, 0⟩ (11/10) 0).ortho_scale } : Camera)) ∧
    (∀ cam ∈ render_frames_cameras
        (_position_camera_for_sprite_sheet ⟨2, 2, ⟨0, 0, 0⟩, -1, 1, 0⟩ (11/10) 0)
        ([((⟨0, 1, 1⟩ : Vec3), (⟨0, 0, 0, 0, 0, 0⟩ : FrameBBox))].map
          (fun f => (some f.1, f.2))),
      cam.ortho_scale = (_position_camera_for_sprite_sheet
          ⟨2, 2, ⟨0, 0, 0⟩, -1, 1, 0⟩ (11/10) 0).ortho_scale) ∧
    (-(max (2:ℚ) 2 * (11/10) * (1/2)) < (0:ℚ) →
      (∀ f ∈ [((⟨0, 1, 1⟩ : Vec3), (⟨0, 0, 0, 0, 0, 0⟩ : FrameBBox))],
        -(max (2:ℚ) 2 * (11/10) * (1/2)) < f.1.x) →
      ∀ cam ∈ render_frames_cameras
          (_position_camera_for_sprite_sheet ⟨2, 2, ⟨0, 0, 0⟩, -1, 1, 0⟩ (11/10) 0)
          ([((⟨0, 1, 1⟩ : Vec3), (⟨0, 0, 0, 0, 0, 0⟩ : FrameBBox))].map
            (fun f => (some f.1, f.2))),
        sameDir (_position_camera_for_sprite_sheet
            ⟨2, 2, ⟨0, 0, 0⟩, -1, 1, 0⟩ (11/10) 0).track cam.track) :=
  c5_camera_scale_once_position_tracks ⟨2, 2, ⟨0, 0, 0⟩, -1, 1, 0⟩ (11/10) 0
    [((⟨0, 1, 1⟩ : Vec3), (⟨0, 0, 0, 0, 0, 0⟩ : FrameBBox))]
    (by norm_num)

/-- C7, counterexample: with the common `mixamorig` armature naming (no `1`),
the hard-coded `joint_to_loc.get("mixamorig1:Hips")` misses, the projection
centers on the midpoint of the y extents instead, and the hips joint of the
pose (Hips at (0,0,0), Head at (0,4,1)) lands at horizontal coordinate 84 on
a 100-wide image — not the midpoint 50 the claim requires. -/
theorem c7_hips_prefix_not_centered :
    (project_points_yz (joint_to_loc
        [("mixamorig:Hips", ⟨some [0, 0, 0]⟩), ("mixamorig:Head", ⟨some [0, 4, 1]⟩)])
      100 100 16).lookup "mixamorig:Hips" = some (84, 84) ∧
    pyRound ((100 : ℚ) / 2) = 50 ∧ (84 : ℤ) ≠ 50 := by
  refine ⟨?_, ?_, by decide⟩
  · rw [show joint_to_loc
        [("mixamorig:Hips", ⟨some [0, 0, 0]⟩), ("mixamorig:Head", ⟨some [0, 4, 1]⟩)]
        = [("mixamorig:Hips", (⟨0, 0, 0⟩ : Vec3)), ("mixamorig:Head", (⟨0, 4, 1⟩ : Vec3))]
        from rfl]
    simp only [project_points_yz]
    rw [show List.lookup "mixamorig1:Hips"
        [("mixamorig:Hips", (⟨0, 0, 0⟩ : Vec3)), ("mixamorig:Head", (⟨0, 4, 1⟩ : Vec3))]
        = (none : Option Vec3) from rfl]
    refine Eq.trans (lookup_map_fn _ (fun kv => rfl) "mixamorig:Hips" _ ⟨0, 0, 0⟩ rfl) ?_
    refine congrArg some (congrArg₂ Prod.mk ?_ ?_)
    · refine Eq.trans (congrArg pyRound ?_) (pyRound_intCast 84)
      norm_num [hipsYOf, qListMin, qListMax, min_def, max_def, abs]
    · refine Eq.trans (congrArg pyRound ?_) (pyRound_intCast 84)
      norm_num [hipsYOf, qListMin, qListMax, min_def, max_def, abs]
  · have hf : ⌊(100 : ℚ) / 2⌋ = 50 := by
      rw [Int.floor_eq_iff]
      constructor
      · norm_num
      · norm_num
    rw [pyRound, if_pos]
    · exact hf
    · rw [hf]
      norm_num

/-- C7, amended: the projection is centered horizontally on the hip joint
only when that joint is literally named `"mixamorig1:Hips"` — any pose
carrying that key projects it to the horizontal midpoint `round(width/2)`
(with any other naming the fallback centers on the y-extent midpoint, see
the counterexample); and for a pose containing only a Hips joint the output
has no bone lines and exactly one joint marker, horizontally centered. -/
theorem c7_projection_centering :
    (∀ (jl : List (String × Vec3)) (w h pad : ℤ) (p : Vec3),
      jl.lookup "mixamorig1:Hips" = some p →
      ∃ v : ℤ, (project_points_yz jl w h pad).lookup "mixamorig1:Hips"
        = some (pyRound ((w : ℚ) / 2), v)) ∧
    (∀ (w h pad : ℤ) (lw : ℕ) (r : ℚ) (a b c : ℚ),
      (render_stick_image w h [("mixamorig:Hips", ⟨some [a, b, c]⟩)] lw r pad).filter
          (fun cmd => cmd.isLine) = [] ∧
      ∃ e, render_stick_image w h [("mixamorig:Hips", ⟨some [a, b, c]⟩)] lw r pad
          = [e] ∧
        e.isEllipse = true ∧ e.centerX = ((pyRound ((w : ℚ) / 2) : ℤ) : ℚ)) := by
  constructor
  · intro jl w h pad p hlk
    cases jl with
    | nil => simp at hlk
    | cons j0 rest =>
      simp only [project_points_yz]
      rw [hlk]
      simp only [hipsYOf_some]
      exact ⟨_, Eq.trans (lookup_map_fn _ (fun kv => rfl) _ _ p hlk)
        (congrArg some (congrArg₂ Prod.mk (congrArg pyRound (by ring)) rfl))⟩
  · intro w h pad lw r a b c
    have hpts : ∃ v : ℤ, project_points_yz [("mixamorig:Hips", (⟨a, b, c⟩ : Vec3))] w h pad
        = [("mixamorig:Hips", (pyRound ((w : ℚ) / 2), v))] := by
      simp only [project_points_yz]
      rw [show List.lookup "mixamorig1:Hips" [("mixamorig:Hips", (⟨a, b, c⟩ : Vec3))]
          = (none : Option Vec3) from rfl]
      simp only [hipsYOf_none, List.map_cons, List.map_nil, qListMin, qListMax,
        List.foldl_cons, List.foldl_nil]
      exact ⟨_, congrArg₂ List.cons
        (congrArg₂ Prod.mk rfl (congrArg₂ Prod.mk (congrArg pyRound (by ring)) rfl)) rfl⟩
    obtain ⟨v, hpts⟩ := hpts
    have hall : render_stick_image w h [("mixamorig:Hips", ⟨some [a, b, c]⟩)] lw r pad
        = [DrawCmd.ellipse (((pyRound ((w : ℚ) / 2) : ℤ) : ℚ) - r) (((v : ℤ) : ℚ) - r)
            (((pyRound ((w : ℚ) / 2) : ℤ) : ℚ) + r) (((v : ℤ) : ℚ) + r)
            (255, 128, 255)] := by
      simp only [render_stick_image]
      rw [show joint_to_loc [("mixamorig:Hips", ⟨some [a, b, c]⟩)]
          = [("mixamorig:Hips", (⟨a, b, c⟩ : Vec3))] from rfl]
      rw [hpts]
      rfl
    refine ⟨by rw [hall]; rfl, ?_⟩
    exact ⟨_, hall, rfl, by simp only [DrawCmd.centerX]; ring⟩

/-- C7, witness for the amended theorem: a pose whose hips joint is named
`"mixamorig1:Hips"` is projected to the horizontal midpoint. -/
theorem c7_projection_centering_witness :
    ∃ v : ℤ, (project_points_yz [("mixamorig1:Hips", (⟨1, 2, 3⟩ : Vec3))] 100 100 16).lookup
        "mixamorig1:Hips" = some (pyRound ((100 : ℚ) / 2), v) :=
  c7_projection_centering.1 [("mixamorig1:Hips", (⟨1, 2, 3⟩ : Vec3))] 100 100 16
    ⟨1, 2, 3⟩ rfl

end Pixelpose
